import Mathlib

/-!
Shallow embedding of the pyroscope-rs core and its pyspy backend:
the session window computation (`Session::new`), the shipping pipeline
(`Session::process`, `Session::send`, the `SessionManager` worker loop),
the `Pyspy` backend lifecycle state machine, the lock granularity of
`Pyspy::report` over the shared sample buffer, and the epoll `Timer`
subscriber protocol.  Machine integers are modelled as `Nat` (the values
involved stay far from the `u64` boundary), fallible Rust code returns
`Except String`, and `&mut self` methods become state-passing functions
returning the Rust return value together with the receiver after the call.
-/

namespace Pyroscope

/-- Compression variants of `PyroscopeConfig` as `Session::process` matches
them (src/src/session.rs lines 192-200): the config holds
`Option<Compression>` with the single variant `GZIP`. -/
inductive Compression
  | gzip
  deriving DecidableEq, Repr

/-- The fields of `PyroscopeConfig` that `Session::process` reads
(src/src/session.rs lines 164-214). -/
structure PyroscopeConfig where
  url : String
  application_name : String
  sample_rate : Nat
  spy_name : String
  auth_token : Option String
  compression : Option Compression
  deriving DecidableEq, Repr

/-- A drained `Report` as the session pipeline consumes it.  The `Report`
type itself (backend module) is outside src/, and the wire serialization is
out of the spec's scope, so a report is carried by its serialized bytes
(`report.to_string().into_bytes()`, src/src/session.rs line 156) together
with the metadata tags that `process` merges into the application name
(line 172). -/
structure Report where
  bytes : List Nat
  tags : List (String × String)
  deriving DecidableEq, Repr

/-- Time window of one cycle as `utils::TimeRange` carries it (`from` is a
Lean keyword, hence the field `from_`). -/
structure TimeRange where
  from_ : Nat
  until_ : Nat
  deriving DecidableEq, Repr

/-- Modelled from the spec: `utils::get_time_range` is not under src/.  The
timer documents its ticks as firing "every 10th second (...10, ...20, ...)"
(src/src/timer/epoll.rs lines 19-22, "Fire @ 10th sec" line 58) and spec §9
records that the `-10` offset applied in `Session::new` assumes `C = 10`;
accordingly `get_time_range t` is the enclosing 10-second-aligned window
`[t/10*10, t/10*10 + 10)`.  The timer sends `get_time_range(now).from` as
the tick timestamp, so tick timestamps are multiples of 10. -/
def get_time_range (t : Nat) : TimeRange :=
  { from_ := t / 10 * 10, until_ := t / 10 * 10 + 10 }

/-- `Session` (src/src/session.rs lines 90-97). -/
structure Session where
  config : PyroscopeConfig
  reports : List Report
  from_ : Nat
  until_ : Nat
  deriving DecidableEq, Repr

/-- `Session::new` (src/src/session.rs lines 108-121): the window is
`get_time_range(until)` shifted down by the hard-coded 10 seconds
("We balance this by reducing 10s from the returned range"). -/
def Session.new (until_ : Nat) (config : PyroscopeConfig)
    (reports : List Report) : Session :=
  let time_range := get_time_range until_
  { config := config, reports := reports,
    from_ := time_range.from_ - 10, until_ := time_range.until_ - 10 }

/-- The POST request `Session::process` issues (src/src/session.rs lines
163-214): target URL parts, headers in insertion order, query parameters,
body bytes. -/
structure HttpRequest where
  server_url : String
  path : String
  headers : List (String × String)
  query : List (String × String)
  body : List Nat
  deriving DecidableEq, Repr

/-- The request built by `Session::process` for a report with nonempty
serialized bytes (src/src/session.rs lines 163-214).  `gzipFn` stands for
the external libflate gzip encoder and `mergeTags` for
`utils::merge_tags_with_app_name` (both outside src/); the header and body
construction itself follows the source: `Content-Type` always, the bearer
header when `auth_token` is set, and on `Some(Compression::GZIP)` the
`Content-encoding: gzip` header with the gzip-compressed body, on `None`
the raw bytes with no such header. -/
def mkRequest (gzipFn : List Nat → List Nat)
    (mergeTags : String → List (String × String) → String)
    (s : Session) (r : Report) : HttpRequest :=
  let application_name := mergeTags s.config.application_name r.tags
  let headers0 := [("Content-Type", "binary/octet-stream")]
  let headers1 := match s.config.auth_token with
    | some token => headers0 ++ [("Authorization", "Bearer " ++ token)]
    | none => headers0
  let withBody := match s.config.compression with
    | none => (headers1, r.bytes)
    | some Compression.gzip =>
        (headers1 ++ [("Content-encoding", "gzip")], gzipFn r.bytes)
  { server_url := s.config.url
    path := "ingest"
    headers := withBody.1
    query := [("name", application_name), ("from", toString s.from_),
      ("until", toString s.until_), ("format", "folded"),
      ("sampleRate", toString s.config.sample_rate),
      ("spyName", s.config.spy_name)]
    body := withBody.2 }

/-- `Session::process` (src/src/session.rs lines 147-216): a report whose
serialized bytes are empty is skipped with `Ok`, otherwise the request is
issued; `net` gives each request's outcome (`Ok` on success, an error for
timeout, non-2xx or transport failure, the `send()?` on line 214).
Returns the requests issued and the Rust return value. -/
def Session.process (gzipFn : List Nat → List Nat)
    (mergeTags : String → List (String × String) → String)
    (net : HttpRequest → Except String Unit)
    (s : Session) (r : Report) : List HttpRequest × Except String Unit :=
  if r.bytes = [] then ([], Except.ok ())
  else
    let req := mkRequest gzipFn mergeTags s r
    ([req], net req)

/-- The `for report in &self.reports { self.process(report)?; }` loop of
`Session::send` (src/src/session.rs lines 139-141): the `?` aborts the loop
at the first report whose processing fails. -/
def sendLoop (gzipFn : List Nat → List Nat)
    (mergeTags : String → List (String × String) → String)
    (net : HttpRequest → Except String Unit)
    (s : Session) : List Report → List HttpRequest × Except String Unit
  | [] => ([], Except.ok ())
  | r :: rs =>
    let pr := Session.process gzipFn mergeTags net s r
    match pr.2 with
    | Except.ok _ =>
        let rest := sendLoop gzipFn mergeTags net s rs
        (pr.1 ++ rest.1, rest.2)
    | Except.error err => (pr.1, Except.error err)

/-- `Session::send` (src/src/session.rs lines 132-144): an empty reports
vector returns `Ok` at once, otherwise the loop over the reports runs. -/
def Session.send (gzipFn : List Nat → List Nat)
    (mergeTags : String → List (String × String) → String)
    (net : HttpRequest → Except String Unit)
    (s : Session) : List HttpRequest × Except String Unit :=
  if s.reports = [] then ([], Except.ok ())
  else sendLoop gzipFn mergeTags net s s.reports

/-- `SessionSignal` (src/src/session.rs lines 24-29). -/
inductive SessionSignal
  | session (s : Session)
  | kill
  deriving DecidableEq, Repr

/-- The SessionManager worker loop spawned in `SessionManager::new`
(src/src/session.rs lines 49-70).  Signals arrive in the FIFO order of the
`sync_channel`; on a `Session` signal the session is sent and any error is
only logged (the explicit `match` on lines 57-60), on `Kill` the closure
returns `Ok(())` at once, and a closed channel (the end of the queue) ends
the `while let` with `Ok(())`.  Returns the per-session issued-request
lists of the sessions processed, and whether the worker returned `Ok`. -/
def managerLoop (gzipFn : List Nat → List Nat)
    (mergeTags : String → List (String × String) → String)
    (net : HttpRequest → Except String Unit) :
    List SessionSignal → List (List HttpRequest) × Bool
  | [] => ([], true)
  | SessionSignal.session s :: rest =>
    let sent := Session.send gzipFn mergeTags net s
    let tail := managerLoop gzipFn mergeTags net rest
    (sent.1 :: tail.1, tail.2)
  | SessionSignal.kill :: _ => ([], true)

/-- Backend lifecycle states (`State` of the backend module; the pyspy
source matches on `Uninitialized`, `Ready` and `Running`, spec §3 adds
`Stopped`). -/
inductive State
  | uninitialized
  | ready
  | running
  | stopped
  deriving DecidableEq, Repr

/-- The `Pyspy` backend
(src/pyroscope_backends/pyroscope_pyspy/src/lib.rs lines 112-125): its
state, the shared profiling buffer (kept as the list of recorded traces;
serialization of the drain is the content itself), the configured pid and
sample rate, whether `sampler_config` has been built, whether a sampler
thread handle is present, and the atomic `running` flag. -/
structure Pyspy where
  state : State
  buffer : List String
  pid : Option Int
  sample_rate : Nat
  sampler_config : Bool
  sampler_thread : Bool
  running : Bool
  deriving DecidableEq, Repr

/-- `Pyspy::new` (src/pyroscope_backends/pyroscope_pyspy/src/lib.rs lines
135-144): Uninitialized, empty buffer, no sampler config or thread,
`running` false. -/
def Pyspy.new (pid : Option Int) (sample_rate : Nat) : Pyspy :=
  { state := State.uninitialized, buffer := [], pid := pid,
    sample_rate := sample_rate, sampler_config := false,
    sampler_thread := false, running := false }

/-- `Pyspy::initialize` (src/pyroscope_backends/pyroscope_pyspy/src/lib.rs
lines 160-195): only legal from Uninitialized, requires a pid, builds the
sampler config and moves to Ready; the guard errors return before any
mutation. -/
def Pyspy.initialize (p : Pyspy) : Except String Unit × Pyspy :=
  if p.state ≠ State.uninitialized then
    (Except.error "Rbspy: Backend is already Initialized", p)
  else if p.pid = none then
    (Except.error "Rbspy: No Process ID Specified", p)
  else
    (Except.ok (), { p with sampler_config := true, state := State.ready })

/-- `Pyspy::start` (src/pyroscope_backends/pyroscope_pyspy/src/lib.rs lines
197-241): only legal from Ready; sets the `running` flag, spawns the
sampler thread and moves to Running. -/
def Pyspy.start (p : Pyspy) : Except String Unit × Pyspy :=
  if p.state ≠ State.ready then
    (Except.error "Rbspy: Backend is not Ready", p)
  else
    (Except.ok (),
      { p with
        running := true
        sampler_thread := true
        state := State.running })

/-- `Pyspy::stop` (src/pyroscope_backends/pyroscope_pyspy/src/lib.rs lines
243-259): only legal from Running; clears the flag, joins the sampler
thread and moves back to Ready, the buffer left intact. -/
def Pyspy.stop (p : Pyspy) : Except String Unit × Pyspy :=
  if p.state ≠ State.running then
    (Except.error "Rbspy: Backend is not Running", p)
  else
    (Except.ok (),
      { p with
        running := false
        sampler_thread := false
        state := State.ready })

/-- `Pyspy::report` as one sequential call
(src/pyroscope_backends/pyroscope_pyspy/src/lib.rs lines 261-274): guarded
on Running, returns the serialized buffer contents and clears the buffer.
The interleaving of its two separate lock acquisitions with the sampler is
modelled separately by `bufferStep`. -/
def Pyspy.report (p : Pyspy) : Except String (List String) × Pyspy :=
  if p.state ≠ State.running then
    (Except.error "Rbspy: Backend is not Running", p)
  else
    (Except.ok p.buffer, { p with buffer := [] })

/-- One lock-protected critical section on the shared `buffer` of a running
`Pyspy`: the sampler thread's `buffer.lock()?.record(own_trace)`
(src/pyroscope_backends/pyroscope_pyspy/src/lib.rs line 230), and the two
separate lock acquisitions inside `Pyspy::report`: first
`buffer.lock()?.to_string()` (line 269), then `buffer.lock()?.clear()`
(line 271).  Between `reportRead` and `reportClear` the lock is free and
the sampler may record. -/
inductive BufferEv
  | record (trace : String)
  | reportRead
  | reportClear
  deriving DecidableEq, Repr

/-- The shared buffer together with a draining `report()` call's local
`v8` (the bytes captured by its first lock) and the outputs of the
completed `report()` calls. -/
structure BufferSt where
  buffer : List String
  captured : Option (List String)
  reported : List (List String)
  deriving DecidableEq, Repr

/-- Effect of one critical section from `BufferEv` on the shared buffer
state, translated section by section from the source: `record` appends
under the lock, `reportRead` serializes the current contents into the
drain's local value, `reportClear` re-acquires the lock, empties the buffer
and completes the drain with the value captured at read time. -/
def bufferStep : BufferSt → BufferEv → BufferSt
  | st, BufferEv.record trace => { st with buffer := st.buffer ++ [trace] }
  | st, BufferEv.reportRead => { st with captured := some st.buffer }
  | st, BufferEv.reportClear =>
    match st.captured with
    | some c =>
      { buffer := [], captured := none, reported := st.reported ++ [c] }
    | none => st

/-- A whole interleaving of sampler records and drain sections. -/
def bufferRun (st : BufferSt) (evs : List BufferEv) : BufferSt :=
  evs.foldl bufferStep st

/-- The epoll `Timer`'s observable state (src/src/timer/epoll.rs): the
subscriber list `txs` (senders as numeric ids; id 0 is the dummy sender
pushed by `Timer::initialize` on lines 40-41), whether the worker thread of
lines 48-70 is still looping, whether it has closed the timerfd and epoll
fd, and the flattened log of tick deliveries (one entry per sender per
fired tick). -/
structure TimerSt where
  txs : List Nat
  workerAlive : Bool
  fdsClosed : Bool
  delivered : List Nat
  deriving DecidableEq, Repr

/-- State right after `Timer::initialize` (src/src/timer/epoll.rs lines
35-74): the dummy sender is already in `txs` and the worker thread has been
spawned. -/
def timerInit : TimerSt :=
  { txs := [0], workerAlive := true, fdsClosed := false, delivered := [] }

/-- `Timer::attach_listener` (src/src/timer/epoll.rs lines 166-172): push
the sender onto `txs` and return `Ok`, unconditionally. -/
def attach_listener (st : TimerSt) (tx : Nat) : Except String Unit × TimerSt :=
  (Except.ok (), { st with txs := st.txs ++ [tx] })

/-- `Timer::drop_listeners` (src/src/timer/epoll.rs lines 175-180): clear
the whole list, the dummy sender included. -/
def drop_listeners (st : TimerSt) : TimerSt :=
  { st with txs := [] }

/-- One step of the system around the Timer: an attach or a drop by a user
thread, or one iteration of the worker loop (src/src/timer/epoll.rs lines
49-69): if the listener list is empty the worker closes the two file
descriptors and exits, otherwise it waits out the tick and sends to every
current listener.  A worker that has exited takes no further action. -/
inductive TimerOp
  | attach (tx : Nat)
  | dropListeners
  | workerStep
  deriving DecidableEq, Repr

/-- Transition function for `TimerOp`. -/
def timerStep : TimerSt → TimerOp → TimerSt
  | st, TimerOp.attach tx => (attach_listener st tx).2
  | st, TimerOp.dropListeners => drop_listeners st
  | st, TimerOp.workerStep =>
    if st.workerAlive then
      if st.txs = [] then
        { st with workerAlive := false, fdsClosed := true }
      else
        { st with delivered := st.delivered ++ st.txs }
    else st

/-- A whole history of timer operations. -/
def timerRun (st : TimerSt) (ops : List TimerOp) : TimerSt :=
  ops.foldl timerStep st

/-- A concrete configuration used by the closed instances below. -/
def exampleConfig : PyroscopeConfig :=
  { url := "http://localhost:4040", application_name := "app",
    sample_rate := 100, spy_name := "pyspy",
    auth_token := none, compression := none }

/-- Identity stand-in for the gzip encoder in closed instances. -/
def idBytes : List Nat → List Nat := fun b => b

/-- Tag merging stand-in that keeps the bare application name. -/
def plainMerge : String → List (String × String) → String := fun a _ => a

/-- A network in which the upload of body `[1]` fails and every other
request succeeds. -/
def failOnOne : HttpRequest → Except String Unit := fun req =>
  if req.body = [1] then Except.error "upload failed" else Except.ok ()

/-- A session holding two reports with nonempty serialized bytes. -/
def twoReportSession : Session :=
  { config := exampleConfig, reports := [Report.mk [1] [], Report.mk [2] []],
    from_ := 120, until_ := 130 }

/-- A Pyspy backend sitting in Ready with one accumulated trace. -/
def readyPyspy : Pyspy :=
  { state := State.ready, buffer := ["fn_a;fn_b 1"], pid := some 0,
    sample_rate := 100, sampler_config := true, sampler_thread := false,
    running := false }

/-- A Pyspy backend sitting in Running with one accumulated trace. -/
def runningPyspy : Pyspy :=
  { state := State.running, buffer := ["fn_a;fn_b 2"], pid := some 0,
    sample_rate := 100, sampler_config := true, sampler_thread := true,
    running := true }

/-- A Pyspy backend sitting in Stopped. -/
def stoppedPyspy : Pyspy :=
  { state := State.stopped, buffer := [], pid := some 0, sample_rate := 100,
    sampler_config := false, sampler_thread := false, running := false }

/-- The interleaving in which the sampler records between the two lock
acquisitions of one `report()` call, followed by a second drain. -/
def lostSampleSchedule : List BufferEv :=
  [BufferEv.record "sample_a", BufferEv.reportRead,
   BufferEv.record "sample_b", BufferEv.reportClear,
   BufferEv.reportRead, BufferEv.reportClear]

/-- The pristine shared buffer. -/
def emptyBuffer : BufferSt := { buffer := [], captured := none, reported := [] }

/-- The timer after its subscriber set drained and the worker observed the
empty list and exited. -/
def drainedTimer : TimerSt :=
  timerRun timerInit [TimerOp.dropListeners, TimerOp.workerStep]


/-- Helper: the SessionManager worker closure returns `Ok` on every queue:
session send errors are matched and logged, never propagated. -/
theorem managerLoop_returns_ok (gzipFn : List Nat → List Nat)
    (mergeTags : String → List (String × String) → String)
    (net : HttpRequest → Except String Unit) (queue : List SessionSignal) :
    (managerLoop gzipFn mergeTags net queue).2 = true := by
  induction queue with
  | nil => rfl
  | cons sig rest ih =>
    cases sig with
    | session s => simp [managerLoop, ih]
    | kill => rfl

/-- Helper: once the timer worker has exited it never acts again: the
flag stays false and no tick is ever delivered, whatever operations
follow. -/
theorem timer_dead_worker_stays_dead (ops : List TimerOp) :
    ∀ st : TimerSt, st.workerAlive = false →
      (timerRun st ops).workerAlive = false ∧
      (timerRun st ops).delivered = st.delivered := by
  induction ops with
  | nil => exact fun st h => ⟨h, rfl⟩
  | cons op rest ih =>
    intro st h
    cases op with
    | attach tx => exact ih { st with txs := st.txs ++ [tx] } h
    | dropListeners => exact ih { st with txs := [] } h
    | workerStep =>
      have hstep : timerStep st TimerOp.workerStep = st := by
        simp [timerStep, h]
      have h2 := ih st h
      simpa [timerRun, hstep] using h2

/-- Helper: while no `drop_listeners` occurs, the subscriber list never
empties (the dummy sender or later attaches keep it nonempty), so the
worker keeps looping and the file descriptors stay open. -/
theorem timer_no_drop_invariant (ops : List TimerOp) :
    ∀ st : TimerSt, TimerOp.dropListeners ∉ ops →
      st.workerAlive = true → st.fdsClosed = false → st.txs ≠ [] →
      (timerRun st ops).workerAlive = true ∧
      (timerRun st ops).fdsClosed = false ∧
      (timerRun st ops).txs ≠ [] := by
  induction ops with
  | nil => exact fun st _ h1 h2 h3 => ⟨h1, h2, h3⟩
  | cons op rest ih =>
    intro st hnotin h1 h2 h3
    have hrest : TimerOp.dropListeners ∉ rest :=
      fun hm => hnotin (List.mem_cons_of_mem _ hm)
    cases op with
    | attach tx =>
      exact ih { st with txs := st.txs ++ [tx] } hrest h1 h2 (by simp)
    | dropListeners =>
      exact absurd (List.mem_cons_self _ _) hnotin
    | workerStep =>
      have hstep : timerStep st TimerOp.workerStep
          = { st with delivered := st.delivered ++ st.txs } := by
        simp [timerStep, h1, h3]
      have h4 := ih { st with delivered := st.delivered ++ st.txs }
        hrest h1 h2 h3
      simpa [timerRun, hstep] using h4

/-- C1: `Session::new` hard-codes a 10-second window, so the claimed
window `until = t`, `from = t - C` fails for a cycle other than 10.  A
timer with cycle `C = 20` started at wall time 15 fires first at the
10-aligned boundary `t = 20` (a multiple of the cycle); the session built
from that tick has `until = 20` but `from = 10`: `until - from` is 10, not
the cycle 20, and `from` is not a multiple of 20. -/
theorem c1_session_window_hardcodes_ten :
    (Session.new 20 exampleConfig []).until_ = 20 ∧
    (Session.new 20 exampleConfig []).from_ = 10 ∧
    (Session.new 20 exampleConfig []).until_
        - (Session.new 20 exampleConfig []).from_ ≠ 20 ∧
    ¬ (20 ∣ (Session.new 20 exampleConfig []).from_) := by
  refine ⟨rfl, rfl, by decide, by decide⟩

/-- C2: the drain in `Pyspy::report` is not atomic — it takes the buffer
lock twice, serializing under the first acquisition and clearing under the
second.  In the interleaving where the sampler records `sample_b` between
the two acquisitions, the cleared `sample_b` appears in no report output,
ever: the first drain returns only `sample_a` and the next drain returns
nothing, so a recorded sample is lost by the swap. -/
theorem c2_nonatomic_drain_loses_sample :
    (bufferRun emptyBuffer lostSampleSchedule).reported = [["sample_a"], []] ∧
    BufferEv.record "sample_b" ∈ lostSampleSchedule ∧
    "sample_b" ∉ (bufferRun emptyBuffer lostSampleSchedule).reported.flatten := by
  refine ⟨rfl, by decide, by decide⟩

/-- C3: the SessionManager's queue is a FIFO channel, so every `Session`
signal enqueued before the `Kill` signal is dequeued and shipped before the
worker ever sees `Kill`; meeting `Kill` it then exits with `Ok`.  The
worker loop on a queue of sessions followed by `Kill` processes exactly
those sessions, in order, and returns `Ok`. -/
theorem c3_manager_kill_ships_queued_sessions (gzipFn : List Nat → List Nat)
    (mergeTags : String → List (String × String) → String)
    (net : HttpRequest → Except String Unit)
    (queued : List Session) (later : List SessionSignal) :
    managerLoop gzipFn mergeTags net
        (queued.map SessionSignal.session ++ SessionSignal.kill :: later)
      = (queued.map fun s => (Session.send gzipFn mergeTags net s).1, true) := by
  induction queued with
  | nil => simp [managerLoop]
  | cons s rest ih => simp [managerLoop, ih]

/-- C4 as stated is false: in a session of two reports with nonempty
serialized bytes whose first upload fails, `Session::send` propagates the
error through the `?` on line 140 and the second report is never
attempted — exactly one request is issued and `send` returns the error. -/
theorem c4_second_report_not_attempted :
    twoReportSession.reports = [Report.mk [1] [], Report.mk [2] []] ∧
    (Report.mk [2] [] : Report).bytes ≠ [] ∧
    (Session.send idBytes plainMerge failOnOne twoReportSession).1
      = [mkRequest idBytes plainMerge twoReportSession (Report.mk [1] [])] ∧
    mkRequest idBytes plainMerge twoReportSession (Report.mk [2] [])
      ∉ (Session.send idBytes plainMerge failOnOne twoReportSession).1 ∧
    (Session.send idBytes plainMerge failOnOne twoReportSession).2
      = Except.error "upload failed" := by
  refine ⟨rfl, by decide, rfl, by decide, rfl⟩

/-- C4 amended: a report whose ingest attempt fails aborts the remaining
reports of its session (`send` stops at the failure and returns the
error), while the SessionManager worker only logs the returned error: the
worker processes every later queue entry just the same and its closure
returns `Ok` on every queue. -/
theorem c4_failure_logged_worker_survives (gzipFn : List Nat → List Nat)
    (mergeTags : String → List (String × String) → String)
    (net : HttpRequest → Except String Unit) (s : Session) (r : Report)
    (rs : List Report) (rest : List SessionSignal) (e : String)
    (h : (Session.process gzipFn mergeTags net s r).2 = Except.error e) :
    sendLoop gzipFn mergeTags net s (r :: rs)
        = ((Session.process gzipFn mergeTags net s r).1, Except.error e) ∧
    managerLoop gzipFn mergeTags net (SessionSignal.session s :: rest)
        = ((Session.send gzipFn mergeTags net s).1
            :: (managerLoop gzipFn mergeTags net rest).1,
           (managerLoop gzipFn mergeTags net rest).2) ∧
    (managerLoop gzipFn mergeTags net (SessionSignal.session s :: rest)).2
        = true := by
  refine ⟨?_, ?_, ?_⟩
  · simp [sendLoop, h]
  · simp [managerLoop]
  · exact managerLoop_returns_ok gzipFn mergeTags net _

/-- C4 witness: the amended claim at the concrete failing session. -/
theorem c4_witness :
    sendLoop idBytes plainMerge failOnOne twoReportSession
        (Report.mk [1] [] :: [Report.mk [2] []])
        = ((Session.process idBytes plainMerge failOnOne twoReportSession
              (Report.mk [1] [])).1, Except.error "upload failed") ∧
    managerLoop idBytes plainMerge failOnOne
        (SessionSignal.session twoReportSession :: [])
        = ((Session.send idBytes plainMerge failOnOne twoReportSession).1
            :: (managerLoop idBytes plainMerge failOnOne []).1,
           (managerLoop idBytes plainMerge failOnOne []).2) ∧
    (managerLoop idBytes plainMerge failOnOne
        (SessionSignal.session twoReportSession :: [])).2 = true :=
  c4_failure_logged_worker_survives idBytes plainMerge failOnOne
    twoReportSession (Report.mk [1] []) [Report.mk [2] []] [] "upload failed"
    rfl


/-- C5: each lifecycle operation of the `Pyspy` backend checks its legal
source state first and, when the state is wrong, returns the state-guard
error (the `InvalidState` failure of the contract) before any mutation:
the backend — state, buffer, config, flags, thread handle — is returned
unchanged.  `initialize` is legal only from Uninitialized, `start` only
from Ready, `stop` only from Running. -/
theorem c5_illegal_op_fails_state_unchanged (p : Pyspy) :
    (p.state ≠ State.uninitialized →
       Pyspy.initialize p
        = (Except.error "Rbspy: Backend is already Initialized", p)) ∧
    (p.state ≠ State.ready →
      Pyspy.start p = (Except.error "Rbspy: Backend is not Ready", p)) ∧
    (p.state ≠ State.running →
      Pyspy.stop p = (Except.error "Rbspy: Backend is not Running", p)) := by
  refine ⟨fun h => ?_, fun h => ?_, fun h => ?_⟩
  · simp [ Pyspy.initialize, h]
  · simp [ Pyspy.start, h]
  · simp [ Pyspy.stop, h]

/-- C5 witness: on a Stopped backend all three operations are illegal, all
three fail with their guard error, and the backend is unchanged. -/
theorem c5_witness :
    ( Pyspy.initialize stoppedPyspy
        = (Except.error "Rbspy: Backend is already Initialized", stoppedPyspy)) ∧
    ( Pyspy.start stoppedPyspy
        = (Except.error "Rbspy: Backend is not Ready", stoppedPyspy)) ∧
    ( Pyspy.stop stoppedPyspy
        = (Except.error "Rbspy: Backend is not Running", stoppedPyspy)) :=
  ⟨(c5_illegal_op_fails_state_unchanged stoppedPyspy).1 (by decide),
   (c5_illegal_op_fails_state_unchanged stoppedPyspy).2.1 (by decide),
   (c5_illegal_op_fails_state_unchanged stoppedPyspy).2.2 (by decide)⟩

/-- C6 as stated is false: `Pyspy::report` is guarded on Running alone
(line 263), so in Ready — where the claim says it succeeds — it fails
with the state-guard error and drains nothing. -/
theorem c6_report_fails_in_ready :
    readyPyspy.state = State.ready ∧
    Pyspy.report readyPyspy
      = (Except.error "Rbspy: Backend is not Running", readyPyspy) :=
  ⟨rfl, rfl⟩

/-- C6 amended: `report()` succeeds — returning the drained buffer
contents and leaving the buffer empty — exactly when the backend state is
Running; in every other state, Ready included, it fails with the
state-guard error and leaves the backend unchanged. -/
theorem c6_report_succeeds_only_running (p : Pyspy) :
    (p.state = State.running →
      Pyspy.report p = (Except.ok p.buffer, { p with buffer := [] })) ∧
    (p.state ≠ State.running →
      Pyspy.report p = (Except.error "Rbspy: Backend is not Running", p)) := by
  refine ⟨fun h => ?_, fun h => ?_⟩
  · simp [ Pyspy.report, h]
  · simp [ Pyspy.report, h]

/-- C6 witness: the amended claim at a concrete Running backend. -/
theorem c6_witness :
    Pyspy.report runningPyspy
      = (Except.ok runningPyspy.buffer, { runningPyspy with buffer := [] }) :=
  (c6_report_succeeds_only_running runningPyspy).1 rfl

/-- C7 as stated is false: after the subscriber set has drained and the
worker has exited (fds closed), `attach_listener` does not fail with
`TimerTerminated` — it pushes the sender and returns `Ok`, silently
registering a listener to which no tick is ever delivered. -/
theorem c7_attach_after_drain_returns_ok :
    drainedTimer.workerAlive = false ∧
    drainedTimer.txs = [] ∧
    (attach_listener drainedTimer 7).1 = Except.ok () ∧
    7 ∈ (attach_listener drainedTimer 7).2.txs ∧
    (timerRun (attach_listener drainedTimer 7).2
        [TimerOp.workerStep, TimerOp.workerStep]).delivered = [] := by
  refine ⟨rfl, rfl, rfl, by decide, rfl⟩

/-- C7 amended: `attach_listener` never fails: it unconditionally appends
the sender and returns `Ok`, even on a Timer whose subscriber set has
drained and whose worker has exited; and once the worker has exited, no
operation sequence delivers a tick to anyone again, so such a listener
receives no ticks. -/
theorem c7_attach_never_fails (st : TimerSt) (tx : Nat) (ops : List TimerOp) :
    attach_listener st tx
        = (Except.ok (), { st with txs := st.txs ++ [tx] }) ∧
    (st.workerAlive = false →
      (timerRun st ops).workerAlive = false ∧
      (timerRun st ops).delivered = st.delivered) :=
  ⟨rfl, fun h => timer_dead_worker_stays_dead ops st h⟩

/-- C7 witness: the amended claim at the drained timer, the hypothesis of
its second part discharged there. -/
theorem c7_witness :
    attach_listener drainedTimer 9
        = (Except.ok (),
           { drainedTimer with txs := drainedTimer.txs ++ [9] }) ∧
    (timerRun drainedTimer [TimerOp.workerStep]).delivered
        = drainedTimer.delivered :=
  ⟨(c7_attach_never_fails drainedTimer 9 [TimerOp.workerStep]).1,
   ((c7_attach_never_fails drainedTimer 9 [TimerOp.workerStep]).2 rfl).2⟩

/-- C8: the request built by `Session::process` carries the gzip-compressed
serialized bytes as body and the `Content-encoding: gzip` header exactly
when `config.compression` is `Some(GZIP)`; on `None` the body is the raw
serialized bytes and no such header is present
(src/src/session.rs lines 192-200). -/
theorem c8_compression_gzip_iff (gzipFn : List Nat → List Nat)
    (mergeTags : String → List (String × String) → String)
    (s : Session) (r : Report) :
    ((mkRequest gzipFn mergeTags s r).body
        = match s.config.compression with
          | some Compression.gzip => gzipFn r.bytes
          | none => r.bytes) ∧
    ((("Content-encoding", "gzip") ∈ (mkRequest gzipFn mergeTags s r).headers)
        ↔ s.config.compression = some Compression.gzip) := by
  rcases hc : s.config.compression with _ | c
  · rcases ha : s.config.auth_token with _ | t
    · constructor
      · simp [mkRequest, hc, ha]
      · simp [mkRequest, hc, ha]
    · constructor
      · simp [mkRequest, hc, ha]
      · simp [mkRequest, hc, ha]
  · cases c
    rcases ha : s.config.auth_token with _ | t
    · constructor
      · simp [mkRequest, hc, ha]
      · simp [mkRequest, hc, ha]
    · constructor
      · simp [mkRequest, hc, ha]
      · simp [mkRequest, hc, ha]

/-- C9: `Session::send` on an empty reports vector returns `Ok` without
issuing any request (line 134); `Session::process` on a report whose
serialized bytes are empty issues no request and returns `Ok` (line 159),
so inside a session's report loop such a report is skipped and processing
continues exactly as if it were absent. -/
theorem c9_empty_session_and_empty_report (gzipFn : List Nat → List Nat)
    (mergeTags : String → List (String × String) → String)
    (net : HttpRequest → Except String Unit)
    (cfg : PyroscopeConfig) (f u : Nat) (s : Session) (r : Report)
    (rs1 rs2 : List Report) (h : r.bytes = []) :
    Session.send gzipFn mergeTags net
        { config := cfg, reports := [], from_ := f, until_ := u }
      = ([], Except.ok ()) ∧
    Session.process gzipFn mergeTags net s r = ([], Except.ok ()) ∧
    sendLoop gzipFn mergeTags net s (rs1 ++ r :: rs2)
      = sendLoop gzipFn mergeTags net s (rs1 ++ rs2) := by
  refine ⟨by simp [Session.send], by simp [Session.process, h], ?_⟩
  induction rs1 with
  | nil => simp [sendLoop, Session.process, h]
  | cons r1 rest ih =>
    rcases hp : (Session.process gzipFn mergeTags net s r1).2 with e | u2
    · simp [sendLoop, hp]
    · simp [sendLoop, hp]
      exact ⟨congrArg Prod.fst ih, congrArg Prod.snd ih⟩

/-- C9 witness: the claim at a concrete empty session and a concrete
zero-byte report inside a nonempty session. -/
theorem c9_witness :
    Session.send idBytes plainMerge failOnOne
        { config := exampleConfig, reports := [], from_ := 120, until_ := 130 }
      = ([], Except.ok ()) ∧
    Session.process idBytes plainMerge failOnOne twoReportSession
        (Report.mk [] []) = ([], Except.ok ()) ∧
    sendLoop idBytes plainMerge failOnOne twoReportSession
        ([Report.mk [2] []] ++ Report.mk [] [] :: [])
      = sendLoop idBytes plainMerge failOnOne twoReportSession
        ([Report.mk [2] []] ++ []) :=
  c9_empty_session_and_empty_report idBytes plainMerge failOnOne
    exampleConfig 120 130 twoReportSession (Report.mk [] [])
    [Report.mk [2] []] [] rfl

/-- C10: `Timer::initialize` pushes a dummy sender before spawning the
worker, so as long as no `drop_listeners` occurs the subscriber list never
empties — with zero real listeners attached the worker keeps looping and
the timer and epoll file descriptors stay open; and whenever the worker
has exited, a `drop_listeners` (the only operation that empties the list,
dummy included) must have occurred earlier in the history. -/
theorem c10_dummy_sender_keeps_worker_alive (ops : List TimerOp) :
    (TimerOp.dropListeners ∉ ops →
      (timerRun timerInit ops).workerAlive = true ∧
      (timerRun timerInit ops).fdsClosed = false ∧
      (timerRun timerInit ops).txs ≠ []) ∧
    ((timerRun timerInit ops).workerAlive = false →
      TimerOp.dropListeners ∈ ops) := by
  constructor
  · intro h
    exact timer_no_drop_invariant ops timerInit h rfl rfl (by decide)
  · intro h
    by_contra hc
    have h2 := (timer_no_drop_invariant ops timerInit hc rfl rfl (by decide)).1
    exact absurd (h2.symm.trans h) (by decide)

/-- C10 witness: a history of worker iterations and one attach, with no
`drop_listeners`: the worker is alive, the fds open, the list nonempty. -/
theorem c10_witness :
    (timerRun timerInit
        [TimerOp.workerStep, TimerOp.attach 3, TimerOp.workerStep]).workerAlive
      = true ∧
    (timerRun timerInit
        [TimerOp.workerStep, TimerOp.attach 3, TimerOp.workerStep]).fdsClosed
      = false ∧
    (timerRun timerInit
        [TimerOp.workerStep, TimerOp.attach 3, TimerOp.workerStep]).txs
      ≠ [] :=
  (c10_dummy_sender_keeps_worker_alive
      [TimerOp.workerStep, TimerOp.attach 3, TimerOp.workerStep]).1 (by decide)

end Pyroscope
